import Mathlib

/-!
Shallow embedding of the event-window / summary-statistics core of the
productive-liquidity-thesis-bitcoin repository, together with theorems
checking the natural-language specification against it.

Modelling conventions:
- Python `datetime` values (day granularity throughout the repository) are
  embedded as integer day numbers in the proleptic Gregorian calendar
  (day 0 = 1970-01-01, the standard civil-day numbering); `timedelta(days=k)`
  arithmetic is integer addition.  The year range limit of `datetime`
  (years 1..9999) is enforced at parsing, matching `strptime`.
- A date string "YYYY-MM-DD" is embedded as its three numeric fields
  (`DateFields`); `strptime` accepts exactly the valid calendar dates, so
  `parse_date` returns `some` day number on valid fields and `none`
  (the `ValueError` raised by `strptime`) otherwise.
- Python floats are embedded as rationals; `NaN` is `Option.none`.
- A pandas DataFrame with a date column is a list of rows; a missing cell
  (NaN) in a metric column is `Option.none`.
-/

namespace BtcLiquidity

/-- Gregorian leap-year predicate (as used by Python `datetime`). -/
def isLeap (y : ℤ) : Bool :=
  y % 4 == 0 && (y % 100 != 0 || y % 400 == 0)

/-- Number of days in a month of a given year. -/
def daysInMonth (y : ℤ) (m : ℕ) : ℕ :=
  if m = 2 then (if isLeap y then 29 else 28)
  else if m = 4 ∨ m = 6 ∨ m = 9 ∨ m = 11 then 30
  else 31

/-- Civil-day number of a Gregorian date (0 = 1970-01-01); the standard
days-from-civil computation, embedding the day arithmetic of Python
`datetime` / pandas `Timestamp` at day granularity. -/
def daysFromCivil (y : ℤ) (m d : ℕ) : ℤ :=
  let y' : ℤ := if m ≤ 2 then y - 1 else y
  let era : ℤ := y'.fdiv 400
  let yoe : ℤ := y' - era * 400
  let doy : ℤ := (153 * ((m : ℤ) + (if 2 < m then -3 else 9)) + 2).fdiv 5 + ((d : ℤ) - 1)
  let doe : ℤ := yoe * 365 + yoe.fdiv 4 - yoe.fdiv 100 + doy
  era * 146097 + doe - 719468

/-- The three numeric fields of a date string "YYYY-MM-DD". -/
structure DateFields where
  year : ℤ
  month : ℕ
  day : ℕ
deriving DecidableEq

/-- Embeds `parse_date` (src/src/utils/date_windows.py): `strptime` with
format "%Y-%m-%d" succeeds exactly on valid calendar dates with year in
1..9999, returning the date (as its civil-day number); on any other field
values it raises `ValueError`, embedded as `none`. -/
def parse_date (f : DateFields) : Option ℤ :=
  if 1 ≤ f.year ∧ f.year ≤ 9999 ∧ 1 ≤ f.month ∧ f.month ≤ 12 ∧
      1 ≤ f.day ∧ f.day ≤ daysInMonth f.year f.month
  then some (daysFromCivil f.year f.month f.day)
  else none

/-- The pre/crisis window returned by `build_event_window`: two inclusive
date ranges, each a (start, end) pair of day numbers. -/
structure EventWindow where
  pre : ℤ × ℤ
  crisis : ℤ × ℤ
deriving DecidableEq

/-- Embeds `build_event_window` (src/src/utils/date_windows.py): parses the
anchor (propagating the parse failure), then returns
pre = [anchor - days_before, anchor - 1] and
crisis = [anchor, anchor + days_after].  The source performs no validation
of the offsets. -/
def build_event_window (anchor_date : DateFields)
    (days_before : ℤ := 90) (days_after : ℤ := 90) : Option EventWindow :=
  (parse_date anchor_date).map fun anchor =>
    { pre := (anchor - days_before, anchor - 1)
      crisis := (anchor, anchor + days_after) }

/-- Embeds `label_period` (src/src/utils/date_windows.py):
"pre" if date < anchor else "crisis". -/
def label_period (date : ℤ) (anchor : ℤ) : String :=
  if date < anchor then "pre" else "crisis"

/-- One row of a metric DataFrame: a date and a metric value that may be
missing (NaN). -/
structure Row where
  date : ℤ
  value : Option ℚ
deriving DecidableEq

/-- Embeds `slice_dataframe_by_window` (src/src/utils/date_windows.py):
keeps exactly the rows whose date satisfies
start_date <= date <= end_date (both bounds inclusive). -/
def slice_dataframe_by_window (df : List Row) (start_date end_date : ℤ) : List Row :=
  df.filter fun r => decide (start_date ≤ r.date ∧ r.date ≤ end_date)

/-- Embeds `add_period_labels` (src/src/utils/date_windows.py): appends to
each row the period label computed by `label_period` against the anchor. -/
def add_period_labels (df : List Row) (anchor : ℤ) : List (Row × String) :=
  df.map fun r => (r, label_period r.date anchor)

/-- Embeds Python `round` on a value that is an exact rational: round to the
nearest integer, ties to the even integer (banker rounding). -/
def round_half_even (x : ℚ) : ℤ :=
  let n := ⌊x⌋
  if x - n < 1/2 then n
  else if 1/2 < x - n then n + 1
  else if 2 ∣ n then n else n + 1

/-- Embeds Python `round(x, ndigits)` on exact rationals. -/
def py_round (x : ℚ) (ndigits : ℕ) : ℚ :=
  (round_half_even (x * 10 ^ ndigits) : ℚ) / 10 ^ ndigits

/-- Embeds `percent_change` (src/src/utils/math_stats.py): NaN (`none`) when
the old value is 0, otherwise ((new - old) / old) * 100 rounded to
`round_decimals` decimals. -/
def percent_change (value_new value_old : ℚ) (round_decimals : ℕ := 2) : Option ℚ :=
  if value_old = 0 then none
  else some (py_round ((value_new - value_old) / value_old * 100) round_decimals)

/-- Mean of a pandas Series of non-missing values: NaN (`none`) on an empty
series, otherwise the sum divided by the length. -/
def series_mean (s : List ℚ) : Option ℚ :=
  if s = [] then none else some (s.sum / s.length)

/-- `percent_change` lifted to possibly-NaN arguments, as float NaN
propagates through the arithmetic of the source. -/
def percent_change_nan (value_new value_old : Option ℚ) : Option ℚ :=
  match value_new, value_old with
  | some n, some o => percent_change n o
  | _, _ => none

/-- Result record of `compare_periods`: metric name, pre mean and crisis
mean (rounded to 4 decimals), percent change. -/
structure PeriodComparison where
  metric : String
  pre_mean : Option ℚ
  crisis_mean : Option ℚ
  percent_change : Option ℚ
deriving DecidableEq

/-- Embeds `compare_periods` (src/src/utils/math_stats.py): means of the two
series, rounded to 4 decimals for reporting, with the percent change
computed from the unrounded means. -/
def compare_periods (pre_series crisis_series : List ℚ)
    (metric_name : String := "metric") : PeriodComparison :=
  { metric := metric_name
    pre_mean := (series_mean pre_series).map (py_round · 4)
    crisis_mean := (series_mean crisis_series).map (py_round · 4)
    percent_change := percent_change_nan (series_mean crisis_series) (series_mean pre_series) }

/-- Embeds `block_subsidy` (src/src/metrics/fees_and_fee_to_subsidy.py):
50 / 2 ^ (height // 210000), with Python floor division (`Int.fdiv`) and a
possibly negative exponent as in Python `2 ** halvings`. -/
def block_subsidy (height : ℤ) : ℚ :=
  50 / (2 : ℚ) ^ (height.fdiv 210000)

/-- Embeds `compute_fee_to_subsidy` (src/src/metrics/fees_and_fee_to_subsidy.py):
fees / (fees + subsidy), returning 0 when the total reward is 0. -/
def compute_fee_to_subsidy (fees_btc subsidy_btc : ℚ) : ℚ :=
  if fees_btc + subsidy_btc = 0 then 0
  else fees_btc / (fees_btc + subsidy_btc)

/-- Embeds `get_subsidy_on_date` (src/src/metrics/simple_fee_metrics.py):
the date-based subsidy lookup with hardcoded halving-date boundaries; the
argument is the day number of the parsed date. -/
def get_subsidy_on_date (t : ℤ) : ℚ :=
  if t < daysFromCivil 2012 11 28 then 50.0
  else if t < daysFromCivil 2016 7 9 then 25.0
  else if t < daysFromCivil 2020 5 11 then 12.5
  else if t < daysFromCivil 2024 4 19 then 6.25
  else 3.125

/-- Embeds the approximate-height fallback of `compute_fee_to_subsidy_ratio`
(src/src/metrics/fees_and_fee_to_subsidy.py): when no height column is
available, the height is approximated as
(date - Timestamp(2009-01-03)).days * 144. -/
def approx_height (t : ℤ) : ℤ :=
  (t - daysFromCivil 2009 1 3) * 144

/-- Embeds `merge_metrics_on_date` (src/src/pipelines/build_event_dataset.py).
The body of the source function is an unimplemented TODO stub: for an empty
metrics dict it prints "No metrics to merge" and returns an empty DataFrame,
and in every other case it prints "Merge not implemented yet" and likewise
returns an empty DataFrame.  A merged row would pair a date with the
per-metric values (missing cells as `none`). -/
def merge_metrics_on_date (metrics_dict : List (String × List (ℤ × ℚ))) :
    List (ℤ × List (Option ℚ)) :=
  if metrics_dict = [] then []
  else []

/-! Helper lemmas shared by the claim theorems. -/

/-- Floor division by 210000 agrees with Euclidean division (for the
positive divisor used by block_subsidy). -/
lemma fdiv_210000 (a : ℤ) : a.fdiv 210000 = a / 210000 :=
  Int.fdiv_eq_ediv a (by norm_num)

/-- Value of block_subsidy on the k-th halving era. -/
lemma block_subsidy_of_era (x : ℤ) (k : ℕ) (h1 : 210000 * (k : ℤ) ≤ x)
    (h2 : x < 210000 * ((k : ℤ) + 1)) : block_subsidy x = 50 / 2 ^ k := by
  unfold block_subsidy
  rw [fdiv_210000]
  have hq : x / 210000 = (k : ℤ) := by omega
  rw [hq, zpow_natCast]

/-- Number of indices i < n with lo <= t0 + i <= hi. -/
lemma countP_range_window (lo hi t0 : ℤ) :
    ∀ n : ℕ, (((List.range n).countP fun (i : ℕ) =>
        decide (lo ≤ t0 + (i:ℤ) ∧ t0 + (i:ℤ) ≤ hi)) : ℤ) =
      max 0 (min (t0 + n) (hi + 1) - max t0 lo)
  | 0 => by simp
  | n + 1 => by
    rw [List.range_succ, List.countP_append]
    have hsingle : (List.countP (fun (i : ℕ) =>
        decide (lo ≤ t0 + (i:ℤ) ∧ t0 + (i:ℤ) ≤ hi)) [n]) =
        if lo ≤ t0 + (n:ℤ) ∧ t0 + (n:ℤ) ≤ hi then 1 else 0 := by
      by_cases h : lo ≤ t0 + (n:ℤ) ∧ t0 + (n:ℤ) ≤ hi <;> simp [h]
    rw [hsingle]
    have ih := countP_range_window lo hi t0 n
    by_cases h : lo ≤ t0 + (n:ℤ) ∧ t0 + (n:ℤ) ≤ hi
    · rw [if_pos h]; push_cast; push_cast at ih; omega
    · rw [if_neg h]; push_cast; push_cast at ih
      rw [not_and_or] at h
      rcases h with h | h <;> omega

/-- Length of a window slice of a table with consecutive daily dates. -/
lemma slice_range_length (n : ℕ) (v : ℕ → Option ℚ) (t0 lo hi : ℤ) :
    ((slice_dataframe_by_window ((List.range n).map fun (i : ℕ) =>
        ⟨t0 + (i:ℤ), v i⟩) lo hi).length : ℤ) =
      max 0 (min (t0 + n) (hi + 1) - max t0 lo) := by
  unfold slice_dataframe_by_window
  rw [← List.countP_eq_length_filter, List.countP_map]
  exact countP_range_window lo hi t0 n

/-- Numeric form of the date-based subsidy lookup (day numbers of the four
hardcoded halving boundary dates). -/
lemma get_subsidy_on_date_eq (t : ℤ) :
    get_subsidy_on_date t =
      if t < 15672 then 50.0 else if t < 16991 then 25.0 else if t < 18393 then 12.5
      else if t < 19832 then 6.25 else 3.125 := by
  unfold get_subsidy_on_date
  rw [show daysFromCivil 2012 11 28 = 15672 from by decide,
    show daysFromCivil 2016 7 9 = 16991 from by decide,
    show daysFromCivil 2020 5 11 = 18393 from by decide,
    show daysFromCivil 2024 4 19 = 19832 from by decide]

/-! Claim theorems. -/

/-- C1: for every anchor parseable as a calendar date and all integer
offsets, build_event_window returns pre = [anchor - days_before, anchor - 1]
and crisis = [anchor, anchor + days_after] (inclusive bounds); for
non-negative offsets the two ranges are disjoint and contiguous
(crisis starts exactly one day after pre ends), and days_before = 0 yields
an empty pre range with pre.start > pre.end. -/
theorem build_event_window_bounds (f : DateFields) (days_before days_after anchor : ℤ)
    (h : parse_date f = some anchor) :
    build_event_window f days_before days_after = some
      { pre := (anchor - days_before, anchor - 1)
        crisis := (anchor, anchor + days_after) } ∧
    (0 ≤ days_before → 0 ≤ days_after →
      (∀ t : ℤ, ¬((anchor - days_before ≤ t ∧ t ≤ anchor - 1) ∧
        (anchor ≤ t ∧ t ≤ anchor + days_after))) ∧
      (anchor - 1) + 1 = anchor) ∧
    (days_before = 0 → anchor - days_before > anchor - 1) := by
  refine ⟨?_, fun _ _ => ⟨fun t ht => by omega, by ring⟩, fun h0 => by omega⟩
  unfold build_event_window
  rw [h]
  rfl

/-- Witness for C1 at the Cyprus anchor 2013-03-16 (day number 15780) with
the default 90-day offsets. -/
theorem build_event_window_bounds_wit :
    build_event_window ⟨2013, 3, 16⟩ 90 90 =
      some { pre := (15690, 15779), crisis := (15780, 15870) } :=
  (build_event_window_bounds ⟨2013, 3, 16⟩ 90 90 15780 (by decide)).1

/-- C5 counterexample: with negative offsets, build_event_window raises
nothing and returns a window; the source performs no offset validation and
no InvalidWindowError exists anywhere in the repository. -/
theorem build_event_window_negative_offsets_ok :
    build_event_window ⟨2013, 3, 16⟩ (-5) (-3) =
      some { pre := (15785, 15779), crisis := (15780, 15777) } := by decide

/-- C5 amended: build_event_window fails exactly when the anchor cannot be
parsed as a calendar date (the ValueError of strptime; no dedicated
InvalidDateError class exists), and never returns a window in that case;
offsets, including negative ones, are never validated. -/
theorem build_event_window_failure_amended :
    (∀ (f : DateFields) (days_before days_after : ℤ),
      build_event_window f days_before days_after = none ↔ parse_date f = none) ∧
    build_event_window ⟨2013, 2, 30⟩ 90 90 = none := by
  constructor
  · intro f days_before days_after
    unfold build_event_window
    cases parse_date f <;> simp
  · decide

/-- C2: evaluation of the merge stub at two disjoint one-row series. The
source body of merge_metrics_on_date is an unimplemented TODO placeholder
that returns an empty DataFrame, contradicting its own docstring (which
promises a single merged DataFrame with all metrics) and the spec's outer
join whose row count here would be 1 + 1 = 2. -/
theorem merge_metrics_on_date_stub_empty :
    merge_metrics_on_date [("a", [((15706 : ℤ), (1 : ℚ))]), ("b", [(15707, 2)])] = [] ∧
    (merge_metrics_on_date [("a", [((15706 : ℤ), (1 : ℚ))]), ("b", [(15707, 2)])]).length ≠
      [((15706 : ℤ), (1 : ℚ))].length + [((15707 : ℤ), (2 : ℚ))].length := by
  exact ⟨rfl, by decide⟩

/-- C3: percent_change is ((new - old) / old) * 100 rounded to 2 decimals
and NaN (none, not an exception and not zero) when the old value is 0;
composed through compare_periods, pre = [50, 55, 60] and
crisis = [80, 85, 90] give pre_mean 55.0, crisis_mean 85.0 and
percent_change 54.55. -/
theorem percent_change_spec :
    (∀ value_new value_old : ℚ, percent_change value_new value_old =
      if value_old = 0 then none
      else some (py_round ((value_new - value_old) / value_old * 100) 2)) ∧
    compare_periods [50, 55, 60] [80, 85, 90] "x" =
      { metric := "x", pre_mean := some 55, crisis_mean := some 85,
        percent_change := some 54.55 } := by
  refine ⟨fun value_new value_old => rfl, ?_⟩
  have h1 : series_mean [50, 55, 60] = some 55 := by
    rw [series_mean, if_neg (by simp)]; norm_num
  have h2 : series_mean [80, 85, 90] = some 85 := by
    rw [series_mean, if_neg (by simp)]; norm_num
  have h3 : py_round (55 : ℚ) 4 = 55 := by norm_num [py_round, round_half_even]
  have h4 : py_round (85 : ℚ) 4 = 85 := by norm_num [py_round, round_half_even]
  have h5 : percent_change 85 55 = some 54.55 := by
    norm_num [percent_change, py_round, round_half_even]
  simp [compare_periods, h1, h2, h3, h4, h5, percent_change_nan]

/-- C4: block_subsidy is the step function 50 / 2 ^ (height // 210000); it
halves exactly every 210000 blocks and takes the values 50, 25, 12.5, 6.25
and 3.125 at heights 0, 210000, 420000, 630000 and 840000. -/
theorem block_subsidy_halving_schedule :
    (∀ height : ℤ, block_subsidy height = 50 / (2:ℚ) ^ (height.fdiv 210000)) ∧
    (∀ height : ℤ, block_subsidy (height + 210000) = block_subsidy height / 2) ∧
    block_subsidy 0 = 50.0 ∧ block_subsidy 210000 = 25.0 ∧
    block_subsidy 420000 = 12.5 ∧ block_subsidy 630000 = 6.25 ∧
    block_subsidy 840000 = 3.125 := by
  refine ⟨fun height => rfl, fun height => ?_, ?_, ?_, ?_, ?_, ?_⟩
  · unfold block_subsidy
    rw [fdiv_210000, fdiv_210000,
      show (height + 210000) / 210000 = height / 210000 + 1 by omega,
      zpow_add_one₀ (by norm_num : (2:ℚ) ≠ 0), div_div]
  all_goals norm_num [block_subsidy, Int.fdiv]

/-- C10: block_subsidy halves when the height grows by 210000, is
monotonically non-increasing on non-negative heights, and is constant on
each era [210000 * k, 210000 * (k + 1)). -/
theorem block_subsidy_monotone_era :
    (∀ h : ℤ, 0 ≤ h → block_subsidy (h + 210000) = block_subsidy h / 2) ∧
    (∀ h₁ h₂ : ℤ, 0 ≤ h₁ → h₁ ≤ h₂ → block_subsidy h₂ ≤ block_subsidy h₁) ∧
    (∀ (k : ℕ) (h : ℤ), 210000 * (k:ℤ) ≤ h → h < 210000 * ((k:ℤ) + 1) →
      block_subsidy h = block_subsidy (210000 * (k:ℤ))) := by
  refine ⟨fun h _ => block_subsidy_halving_schedule.2.1 h, ?_, ?_⟩
  · intro h₁ h₂ hn hle
    unfold block_subsidy
    have hdiv : h₁.fdiv 210000 ≤ h₂.fdiv 210000 := by
      rw [fdiv_210000, fdiv_210000]
      exact Int.ediv_le_ediv (by norm_num) hle
    have hpow : (2:ℚ) ^ (h₁.fdiv 210000) ≤ (2:ℚ) ^ (h₂.fdiv 210000) :=
      zpow_le_zpow_right₀ (by norm_num) hdiv
    have hpos : (0:ℚ) < 2 ^ (h₁.fdiv 210000) := zpow_pos (by norm_num) _
    exact div_le_div_of_nonneg_left (by norm_num) hpos hpow
  · intro k h hk1 hk2
    rw [block_subsidy_of_era h k hk1 hk2,
      block_subsidy_of_era (210000 * (k:ℤ)) k (le_refl _) (by omega)]

/-- Witness for C10 at heights 0, 420000 vs 850000, and 300000 in era 1. -/
theorem block_subsidy_monotone_era_wit :
    block_subsidy (0 + 210000) = block_subsidy 0 / 2 ∧
    block_subsidy 850000 ≤ block_subsidy 420000 ∧
    block_subsidy 300000 = block_subsidy (210000 * ((1:ℕ):ℤ)) :=
  ⟨block_subsidy_monotone_era.1 0 (by norm_num),
    block_subsidy_monotone_era.2.1 420000 850000 (by norm_num) (by norm_num),
    block_subsidy_monotone_era.2.2 1 300000 (by norm_num) (by norm_num)⟩

/-- C6: compute_fee_to_subsidy equals fees / (fees + subsidy) whenever the
total reward is non-zero, returns 0 (not an exception) when both are 0, and
lies in [0, 1] for non-negative inputs. -/
theorem compute_fee_to_subsidy_spec :
    (∀ fees subsidy : ℚ, fees + subsidy ≠ 0 →
      compute_fee_to_subsidy fees subsidy = fees / (fees + subsidy)) ∧
    compute_fee_to_subsidy 0 0 = 0 ∧
    (∀ fees subsidy : ℚ, 0 ≤ fees → 0 ≤ subsidy →
      0 ≤ compute_fee_to_subsidy fees subsidy ∧
        compute_fee_to_subsidy fees subsidy ≤ 1) := by
  refine ⟨fun fees subsidy h => by rw [compute_fee_to_subsidy, if_neg h], by norm_num [compute_fee_to_subsidy], ?_⟩
  intro fees subsidy hf hs
  unfold compute_fee_to_subsidy
  by_cases h : fees + subsidy = 0
  · rw [if_pos h]; norm_num
  · rw [if_neg h]
    have hpos : 0 < fees + subsidy := lt_of_le_of_ne (add_nonneg hf hs) (Ne.symm h)
    exact ⟨div_nonneg hf hpos.le, (div_le_one hpos).mpr (by linarith)⟩

/-- Witness for C6 at fees 1, subsidy 25/4 and fees 3, subsidy 25/8. -/
theorem compute_fee_to_subsidy_spec_wit :
    compute_fee_to_subsidy 1 (25/4) = 1 / (1 + 25/4) ∧
    0 ≤ compute_fee_to_subsidy 3 (25/8) ∧ compute_fee_to_subsidy 3 (25/8) ≤ 1 :=
  ⟨compute_fee_to_subsidy_spec.1 1 (25/4) (by norm_num),
    (compute_fee_to_subsidy_spec.2.2 3 (25/8) (by norm_num) (by norm_num)).1,
    (compute_fee_to_subsidy_spec.2.2 3 (25/8) (by norm_num) (by norm_num)).2⟩

/-- C7: label_period labels a date "pre" exactly when it is strictly before
the anchor and "crisis" otherwise; the anchor itself is labeled "crisis";
and add_period_labels assigns every row the same label. -/
theorem label_period_spec :
    (∀ date anchor : ℤ, label_period date anchor = "pre" ↔ date < anchor) ∧
    (∀ anchor : ℤ, label_period anchor anchor = "crisis") ∧
    (∀ (df : List Row) (anchor : ℤ) (r : Row × String),
      r ∈ add_period_labels df anchor →
      (r.2 = "pre" ↔ r.1.date < anchor) ∧ (r.1.date = anchor → r.2 = "crisis")) := by
  have hlab : ∀ date anchor : ℤ, label_period date anchor = "pre" ↔ date < anchor := by
    intro date anchor
    by_cases h : date < anchor
    · exact iff_of_true (by rw [label_period, if_pos h]) h
    · exact iff_of_false (by rw [label_period, if_neg h]; decide) h
  refine ⟨hlab, fun anchor => by rw [label_period, if_neg (lt_irrefl anchor)], ?_⟩
  intro df anchor r hr
  rcases List.mem_map.mp hr with ⟨row, _, heq⟩
  subst heq
  refine ⟨hlab row.date anchor, fun hda => ?_⟩
  have hda' : row.date = anchor := hda
  show label_period row.date anchor = "crisis"
  rw [label_period, if_neg (by omega)]

/-- Witness for C7 on a one-row table whose date is the anchor. -/
theorem label_period_spec_wit :
    (label_period 5 10 = "pre" ↔ (5:ℤ) < 10) ∧
    label_period 10 10 = "crisis" ∧
    ((((⟨10, none⟩ : Row), "crisis").2 = "pre" ↔
        ((⟨10, none⟩ : Row), "crisis").1.date < 10) ∧
      (((⟨10, none⟩ : Row), "crisis").1.date = 10 →
        ((⟨10, none⟩ : Row), "crisis").2 = "crisis")) :=
  ⟨label_period_spec.1 5 10, label_period_spec.2.1 10,
    label_period_spec.2.2 [⟨10, none⟩] 10 ((⟨10, none⟩ : Row), "crisis") (by decide)⟩

/-- C8: slice_dataframe_by_window keeps exactly the rows whose date lies in
the inclusive range, regardless of missing metric values; on a table with
full daily coverage of the window built from the offsets it keeps exactly
days_before + days_after + 1 rows. -/
theorem slice_dataframe_by_window_spec :
    (∀ (df : List Row) (start_date end_date : ℤ) (r : Row),
      r ∈ slice_dataframe_by_window df start_date end_date ↔
        r ∈ df ∧ start_date ≤ r.date ∧ r.date ≤ end_date) ∧
    (∀ (f : DateFields) (days_before days_after anchor t0 : ℤ) (n : ℕ)
      (v : ℕ → Option ℚ) (w : EventWindow),
      parse_date f = some anchor →
      build_event_window f days_before days_after = some w →
      0 ≤ days_before → 0 ≤ days_after →
      t0 ≤ anchor - days_before → anchor + days_after < t0 + n →
      ((slice_dataframe_by_window ((List.range n).map fun (i : ℕ) =>
          ⟨t0 + (i:ℤ), v i⟩) w.pre.1 w.crisis.2).length : ℤ) =
        days_before + days_after + 1) := by
  constructor
  · intro df start_date end_date r
    unfold slice_dataframe_by_window
    rw [List.mem_filter, decide_eq_true_iff]
  · intro f days_before days_after anchor t0 n v w hparse hw hb hc ht0 htn
    have hwv : w = { pre := (anchor - days_before, anchor - 1)
                     crisis := (anchor, anchor + days_after) } := by
      unfold build_event_window at hw
      rw [hparse] at hw
      simpa using hw.symm
    subst hwv
    rw [slice_range_length]
    simp only
    omega

/-- Witness for C8: a 4-day table sliced to the 1-day-either-side window
around 2013-03-16 keeps 3 rows. -/
theorem slice_dataframe_by_window_spec_wit :
    ((slice_dataframe_by_window ((List.range 4).map fun (i : ℕ) =>
        ⟨15778 + (i:ℤ), none⟩) 15779 15781).length : ℤ) = 1 + 1 + 1 := by
  have h := slice_dataframe_by_window_spec.2 ⟨2013, 3, 16⟩ 1 1 15780 15778 4
    (fun _ => none) ⟨(15779, 15779), (15780, 15781)⟩ (by decide) (by decide)
    (by norm_num) (by norm_num) (by norm_num) (by norm_num)
  simpa using h

/-- C9 counterexample: on 2012-12-01 (a date after the genesis date
2009-01-03) the date-based lookup returns 25 but the height-based lookup on
the approximate height returns 50, so the two modes are not equivalent. -/
theorem subsidy_lookup_modes_disagree :
    daysFromCivil 2009 1 3 ≤ daysFromCivil 2012 12 1 ∧
    get_subsidy_on_date (daysFromCivil 2012 12 1) = 25 ∧
    block_subsidy (approx_height (daysFromCivil 2012 12 1)) = 50 ∧
    get_subsidy_on_date (daysFromCivil 2012 12 1) ≠
      block_subsidy (approx_height (daysFromCivil 2012 12 1)) := by
  have ht : daysFromCivil 2012 12 1 = 15675 := by decide
  have hg : daysFromCivil 2009 1 3 = 14247 := by decide
  have hL : get_subsidy_on_date 15675 = 25 := by
    rw [get_subsidy_on_date_eq, if_neg (by norm_num), if_pos (by norm_num)]
    norm_num
  have hR : block_subsidy (approx_height 15675) = 50 := by
    rw [approx_height, hg]
    rw [show (15675 - 14247) * 144 = (205632:ℤ) by norm_num,
      block_subsidy_of_era 205632 0 (by norm_num) (by norm_num)]
    norm_num
  rw [ht, hg]
  exact ⟨by norm_num, hL, hR, by rw [hL, hR]; norm_num⟩

/-- C9 amended: for every day number t from the genesis date 2009-01-03
(day 14247) up to but excluding day offset 7292 (past which the
height-based approximation halves a fifth time while the date table stays
at 3.125), the two lookup modes agree exactly outside the four transition
windows in which the hardcoded halving date has passed but the approximate
height 144 * (days since genesis) has not yet reached the halving height. -/
theorem subsidy_lookup_modes_agree_amended (t : ℤ)
    (h1 : daysFromCivil 2009 1 3 ≤ t) (h2 : t < daysFromCivil 2009 1 3 + 7292) :
    (get_subsidy_on_date t = block_subsidy (approx_height t) ↔
      ¬((15672 ≤ t ∧ t < 15706) ∨ (16991 ≤ t ∧ t < 17164) ∨
        (18393 ≤ t ∧ t < 18622) ∨ (19832 ≤ t ∧ t < 20081))) := by
  have hg : daysFromCivil 2009 1 3 = 14247 := by decide
  rw [hg] at h1 h2
  rw [get_subsidy_on_date_eq, approx_height, hg]
  rcases lt_or_le t 15672 with hA | hA
  · rw [if_pos hA, block_subsidy_of_era _ 0 (by omega) (by omega)]
    exact iff_of_true (by norm_num) (by omega)
  rcases lt_or_le t 15706 with hB | hB
  · rw [if_neg (by omega), if_pos (by omega : t < 16991),
      block_subsidy_of_era _ 0 (by omega) (by omega)]
    exact iff_of_false (by norm_num) (fun hn => hn (Or.inl ⟨by omega, by omega⟩))
  rcases lt_or_le t 16991 with hC | hC
  · rw [if_neg (by omega), if_pos hC, block_subsidy_of_era _ 1 (by omega) (by omega)]
    exact iff_of_true (by norm_num) (by omega)
  rcases lt_or_le t 17164 with hD | hD
  · rw [if_neg (by omega), if_neg (by omega), if_pos (by omega : t < 18393),
      block_subsidy_of_era _ 1 (by omega) (by omega)]
    exact iff_of_false (by norm_num) (fun hn => hn (Or.inr (Or.inl ⟨by omega, by omega⟩)))
  rcases lt_or_le t 18393 with hE | hE
  · rw [if_neg (by omega), if_neg (by omega), if_pos hE,
      block_subsidy_of_era _ 2 (by omega) (by omega)]
    exact iff_of_true (by norm_num) (by omega)
  rcases lt_or_le t 18622 with hF | hF
  · rw [if_neg (by omega), if_neg (by omega), if_neg (by omega),
      if_pos (by omega : t < 19832), block_subsidy_of_era _ 2 (by omega) (by omega)]
    exact iff_of_false (by norm_num) (fun hn => hn (Or.inr (Or.inr (Or.inl ⟨by omega, by omega⟩))))
  rcases lt_or_le t 19832 with hG | hG
  · rw [if_neg (by omega), if_neg (by omega), if_neg (by omega), if_pos hG,
      block_subsidy_of_era _ 3 (by omega) (by omega)]
    exact iff_of_true (by norm_num) (by omega)
  rcases lt_or_le t 20081 with hH | hH
  · rw [if_neg (by omega), if_neg (by omega), if_neg (by omega), if_neg (by omega),
      block_subsidy_of_era _ 3 (by omega) (by omega)]
    exact iff_of_false (by norm_num) (fun hn => hn (Or.inr (Or.inr (Or.inr ⟨by omega, by omega⟩))))
  · rw [if_neg (by omega), if_neg (by omega), if_neg (by omega), if_neg (by omega),
      block_subsidy_of_era _ 4 (by omega) (by omega)]
    exact iff_of_true (by norm_num) (by omega)

/-- Witness for the amended C9 at the genesis day itself, where both modes
return 50. -/
theorem subsidy_lookup_modes_agree_amended_wit :
    get_subsidy_on_date 14247 = block_subsidy (approx_height 14247) :=
  (subsidy_lookup_modes_agree_amended 14247 (by decide) (by decide)).mpr (by omega)

end BtcLiquidity
